import Mathlib

/-!
Shallow embedding of the a2a_azure orchestration core
(src/a2a_azure/host_agent.py and src/a2a_azure/agent.py) and proofs of the
spec's testable properties about it.

Conventions:
* Python dicts keyed by strings are modelled as association lists
  (`List (String × _)`); lookup takes the first matching key, assignment
  replaces in place or appends at the end (insertion order), like `dict`.
* A raised Python exception is an `Except.error` carrying a `PyExn`;
  `try/except` blocks are modelled by matching on the `Except`.
* Every network interaction is an oracle parameter: the behaviour of the
  remote endpoint (`RemoteBehavior`), the chat-completion service
  (`llm : ChatHistory → String → Except PyExn String`), and the MCP plugin
  handshake (`handshake : String → Bool`).
-/

/-- A JSON-like Python value, as produced by `response.model_dump(mode='json',
exclude_none=True)` in `DynamicAgentTool._send_to_agent`. -/
inductive Json where
  | null
  | bool (b : Bool)
  | num (n : Int)
  | str (s : String)
  | arr (items : List Json)
  | obj (fields : List (String × Json))

/-- A raised Python exception (an `Exception` subclass; `BaseException`-only
classes such as `KeyboardInterrupt` are outside the model, matching the
`except Exception` handler at host_agent.py:96). -/
inductive PyExn where
  | valueError (msg : String)
  | runtimeError (msg : String)
  | readTimeout
  | keyError (msg : String)
  | typeError (msg : String)
  | attributeError (msg : String)
  | other (msg : String)
deriving DecidableEq, Repr

/-- Python `str(e)` on an exception (the message it was raised with). -/
def pyExnStr : PyExn → String
  | .valueError m => m
  | .runtimeError m => m
  | .readTimeout => ""
  | .keyError m => m
  | .typeError m => m
  | .attributeError m => m
  | .other m => m

/-- First-match lookup in an association list: Python `d[k]` / `k in d` on a
dict (dict keys are unique, so first match is the match). -/
def lookupKey (fields : List (String × Json)) (k : String) : Option Json :=
  match fields with
  | [] => none
  | (k', v) :: rest => if k' = k then some v else lookupKey rest k

/-- Python `str(v)` for JSON-dumped values, used when a value is interpolated
into an f-string.  The `arr`/`obj` renderings are placeholders: no claim
exercises them (error messages in well-formed envelopes are strings). -/
def pyStr : Json → String
  | .null => "None"
  | .bool true => "True"
  | .bool false => "False"
  | .num n => toString n
  | .str s => s
  | .arr _ => "<list>"
  | .obj _ => "<dict>"

/-- Boolean list-prefix test on characters. -/
def isPrefixB : List Char → List Char → Bool
  | [], _ => true
  | _ :: _, [] => false
  | a :: as, b :: bs => a = b && isPrefixB as bs

/-- Boolean substring (contiguous) test on characters: Python `n in s` for
strings. -/
def isInfixB (needle : List Char) : List Char → Bool
  | [] => isPrefixB needle []
  | c :: cs => isPrefixB needle (c :: cs) || isInfixB needle cs

/-- Tests whether a JSON value is the string `k`. -/
def isStrEq (k : String) : Json → Bool
  | .str s => s = k
  | _ => false

/-- Python `k in v` for a string key `k`: key membership on dicts, substring
test on strings, element membership on lists, `TypeError` otherwise. -/
def pyContains (k : String) : Json → Except PyExn Bool
  | .obj fs => .ok (lookupKey fs k).isSome
  | .str s => .ok (isInfixB k.toList s.toList)
  | .arr xs => .ok (xs.any (isStrEq k))
  | _ => .error (.typeError "argument of type is not iterable")

/-- Python subscript `v[i]`.  Only string keys and the non-negative integer
index 0 are exercised by the code under study; other index shapes raise, as
in Python (negative indices are not used and are modelled as errors). -/
def pySubscript : Json → Json → Except PyExn Json
  | .obj fs, .str k =>
    match lookupKey fs k with
    | some v => .ok v
    | none => .error (.keyError k)
  | .obj _, _ => .error (.keyError "unhashable or absent key")
  | .arr xs, .num (.ofNat i) =>
    match xs.get? i with
    | some v => .ok v
    | none => .error (.other "IndexError: list index out of range")
  | .arr _, _ => .error (.typeError "list indices must be integers")
  | .str s, .num (.ofNat i) =>
    match s.toList.get? i with
    | some c => .ok (.str (String.mk [c]))
    | none => .error (.other "IndexError: string index out of range")
  | .str _, _ => .error (.typeError "string indices must be integers")
  | _, _ => .error (.typeError "object is not subscriptable")

/-- Python `len(v)`. -/
def pyLen : Json → Except PyExn Nat
  | .obj fs => .ok fs.length
  | .arr xs => .ok xs.length
  | .str s => .ok s.length
  | _ => .error (.typeError "object has no len")

/-- The diagnostic string built at host_agent.py:91. -/
def unexpectedFormatMsg (agent_name : String) : String :=
  "Error: Unexpected response format from " ++ agent_name ++ " agent"

/-- The envelope-decoding block of `DynamicAgentTool._send_to_agent`
(host_agent.py:82-91), operating on the dict produced by `model_dump`:
check for an "error" member, else extract `result["result"]["parts"][0]["text"]`
when the guard `"result" in result and "parts" in result["result"] and
len(result["result"]["parts"]) > 0` passes, else return the
unexpected-format diagnostic.  Any Python exception raised along the way is
an `Except.error` (to be caught by the surrounding handlers). -/
def envelopeBody (agent_name : String) (result : List (String × Json)) :
    Except PyExn Json :=
  match lookupKey result "error" with
  | some errVal =>
    match errVal with
    | .obj efs =>
      .ok (.str ("Error from " ++ agent_name ++ " agent: " ++
        pyStr ((lookupKey efs "message").getD (.str "Unknown error occurred"))))
    | _ => .error (.attributeError "object has no attribute get")
  | none =>
    match lookupKey result "result" with
    | none => .ok (.str (unexpectedFormatMsg agent_name))
    | some resVal =>
      match pyContains "parts" resVal with
      | .error e => .error e
      | .ok false => .ok (.str (unexpectedFormatMsg agent_name))
      | .ok true =>
        match pySubscript resVal (.str "parts") with
        | .error e => .error e
        | .ok partsVal =>
          match pyLen partsVal with
          | .error e => .error e
          | .ok n =>
            if 0 < n then
              match pySubscript partsVal (.num 0) with
              | .error e => .error e
              | .ok p0 =>
                match pySubscript p0 (.str "text") with
                | .error e => .error e
                | .ok t => .ok t
            else .ok (.str (unexpectedFormatMsg agent_name))

/-- Behaviour of one remote-endpoint interaction as observed by
`_send_to_agent`: the card resolution (host_agent.py:60-61) can time out or
raise; then the single `client.send_message` call (host_agent.py:78) can
time out, raise (which covers wire-level malformed replies rejected by the
SDK's validation), or deliver a decoded envelope dict. -/
inductive RemoteBehavior where
  | resolveTimeout
  | resolveRaise (msg : String)
  | sendTimeout
  | sendRaise (msg : String)
  | reply (envelope : List (String × Json))

/-- The `try` block of `_send_to_agent` (host_agent.py:59-91), paired with
the number of `client.send_message` attempts it made: the resolution step
precedes the single send, and there is no retry loop. -/
def tryBody (agent_name : String) :
    RemoteBehavior → Except PyExn Json × Nat
  | .resolveTimeout => (.error .readTimeout, 0)
  | .resolveRaise m => (.error (.other m), 0)
  | .sendTimeout => (.error .readTimeout, 1)
  | .sendRaise m => (.error (.other m), 1)
  | .reply env => (envelopeBody agent_name env, 1)

/-- `DynamicAgentTool._send_to_agent` (host_agent.py:48-98) with its two
exception handlers: `except httpx.ReadTimeout` (line 93) and
`except Exception` (line 96).  The outer `Except` layer records whether an
exception escapes the method; `.2` counts send attempts. -/
def sendToAgentR (agent_name : String) (b : RemoteBehavior) :
    Except PyExn Json × Nat :=
  match tryBody agent_name b with
  | (.ok v, k) => (.ok v, k)
  | (.error .readTimeout, k) =>
    (.ok (.str ("Error: The " ++ agent_name ++
      " agent is taking longer than expected. Please try again.")), k)
  | (.error e, k) =>
    (.ok (.str ("Error connecting to " ++ agent_name ++ " agent: " ++
      pyExnStr e)), k)

/-! ## Conversation store and agents -/

/-- One message of a conversation (`ChatMessageContent(role=..., content=...)`). -/
structure ChatMessageContent where
  role : String
  content : String
deriving DecidableEq, Repr

/-- `ChatHistory(messages=..., system_message=...)`: the per-context
conversation value stored in `history_store`. -/
structure ChatHistory where
  system_message : String
  messages : List ChatMessageContent
deriving DecidableEq, Repr

/-- `store.get(k)` on `history_store` (a Python dict keyed by context id). -/
def storeGet (s : List (String × ChatHistory)) (k : String) : Option ChatHistory :=
  match s with
  | [] => none
  | (k', v) :: rest => if k' = k then some v else storeGet rest k

/-- `store[k] = v` on `history_store`: replace the binding in place, or append
a new one (dicts keep insertion order). -/
def storeSet (s : List (String × ChatHistory)) (k : String) (v : ChatHistory) :
    List (String × ChatHistory) :=
  match s with
  | [] => [(k, v)]
  | (k', v') :: rest =>
    if k' = k then (k, v) :: rest else (k', v') :: storeSet rest k v

/-- The get-or-create step shared verbatim by `HostAgent.orchestrate`
(host_agent.py:209-216) and `Agent.process_request` (agent.py:121-128):
look the context id up; on a miss create `ChatHistory(messages=[],
system_message=self.system_message)` and insert it. -/
def getOrCreate (system_message : String) (store : List (String × ChatHistory))
    (context_id : String) : ChatHistory × List (String × ChatHistory) :=
  match storeGet store context_id with
  | some h => (h, store)
  | none =>
    let h : ChatHistory := { system_message := system_message, messages := [] }
    (h, storeSet store context_id h)

/-! ## Dynamic tool registry (host agent) -/

/-- One entry of the `agent_endpoints` list: a dict with `url`, `name`,
optional `description` (read via `.get('description', '')`) and
`function_name` (whose presence `HostAgent.__init__` checks). -/
structure EndpointDescriptor where
  url : String
  name : String
  description : Option String
  function_name : Option String
deriving DecidableEq, Repr

/-- The observable content of one dynamically created tool class instance:
the four captured attributes plus the name/description that
`kernel_function` exposes to the LLM's function-calling mechanism. -/
structure ToolBinding where
  agent_url : String
  agent_name : String
  agent_description : String
  function_name : String
  exposed_name : String
  exposed_description : String
deriving DecidableEq, Repr

/-- `create_agent_tool_class` (host_agent.py:26-110): the generated class
captures the four arguments; the `kernel_function` decorator (lines 103-106)
exposes the function under `name=function_name` and
`description=f"Send a request to .. : .."`. -/
def create_agent_tool_class (agent_name agent_url agent_description
    function_name : String) : ToolBinding :=
  { agent_url := agent_url
    agent_name := agent_name
    agent_description := agent_description
    function_name := function_name
    exposed_name := function_name
    exposed_description :=
      "Send a request to " ++ agent_name ++ ": " ++ agent_description }

/-- Where an invocation of the binding sends its request: `_send_to_agent`
opens its connection against `base_url=self.agent_url` (host_agent.py:60). -/
def invokeTarget (tb : ToolBinding) : String :=
  tb.agent_url

/-- The tool-construction part of `HostAgent.__init__` (host_agent.py:146-162):
first every endpoint is checked for a `function_name` key (raising
`ValueError` otherwise), then one tool instance per endpoint is built in
order. -/
def hostInitTools (endpoints : List EndpointDescriptor) :
    Except PyExn (List ToolBinding) :=
  if endpoints.all (fun e => e.function_name.isSome) then
    .ok (endpoints.map (fun e =>
      create_agent_tool_class e.name e.url (e.description.getD "")
        (e.function_name.getD "")))
  else
    .error (.valueError "Agent endpoint must include function_name")

/-! ## Host agent -/

/-- The mutable state of a `HostAgent` that `orchestrate` and
`add_agent_endpoint` touch: the endpoint list, the built tool list, the
plugin list handed to the `ChatCompletionAgent`, and the history store. -/
structure HostAgentState where
  system_message : String
  agent_endpoints : List EndpointDescriptor
  agent_tools : List ToolBinding
  chat_agent_plugins : List ToolBinding
  history_store : List (String × ChatHistory)
deriving Repr

/-- `HostAgent.orchestrate` (host_agent.py:192-227), with the chat-completion
call (line 221) abstracted as the oracle `llm`, which sees the history as it
stands after the user turn was appended (the thread wraps `chat_history`)
and the user input, and either returns the reply text or raises.  Returns
the Python result (reply or raised exception) and the state after the call. -/
def HostAgent.orchestrate
    (llm : ChatHistory → String → Except PyExn String)
    (st : HostAgentState) (user_input context_id : String) :
    Except PyExn String × HostAgentState :=
  if user_input = "" then
    (.error (.valueError "User input cannot be empty."), st)
  else
    let gc := getOrCreate st.system_message st.history_store context_id
    let chat_history := gc.1
    let store0 := gc.2
    let h1 : ChatHistory :=
      { chat_history with
        messages := chat_history.messages ++ [⟨"user", user_input⟩] }
    let st1 : HostAgentState := { st with history_store := storeSet store0 context_id h1 }
    match llm h1 user_input with
    | .error e => (.error e, st1)
    | .ok reply =>
      let h2 : ChatHistory :=
        { h1 with messages := h1.messages ++ [⟨"assistant", reply⟩] }
      (.ok reply, { st with history_store := storeSet store0 context_id h2 })

/-- `HostAgent.add_agent_endpoint` (host_agent.py:229-254): append the
endpoint dict, build one more tool, append it to `agent_tools`, and point
`chat_agent.plugins` at the updated list. -/
def HostAgent.add_agent_endpoint (st : HostAgentState)
    (url name function_name : String) (description : String := "") :
    HostAgentState :=
  let endpoint : EndpointDescriptor :=
    { url := url, name := name, description := some description,
      function_name := some function_name }
  let tool := create_agent_tool_class name url description function_name
  let tools := st.agent_tools ++ [tool]
  { st with
    agent_endpoints := st.agent_endpoints ++ [endpoint]
    agent_tools := tools
    chat_agent_plugins := tools }

/-- A sequence of completed `orchestrate` calls, each started after the
previous one finished (the async scheduler interleaves only at suspension
points; the claims quantify over completed calls). -/
def runTurns (llm : ChatHistory → String → Except PyExn String)
    (st : HostAgentState) : List (String × String) → HostAgentState
  | [] => st
  | (user_input, context_id) :: rest =>
    runTurns llm (HostAgent.orchestrate llm st user_input context_id).2 rest

/-! ## Worker agent -/

/-- The mutable state of an `Agent` that `initialize_plugins` and
`process_request` touch.  `chat_agent_set` is `self.chat_agent is not None`. -/
structure AgentState where
  system_message : String
  mcp_sse_urls : List String
  mcp_plugins : List String
  plugins_initialized : Bool
  chat_agent_set : Bool
  history_store : List (String × ChatHistory)
deriving Repr

/-- `Agent.initialize_plugins` (agent.py:74-97), with the per-URL SSE
handshake abstracted as the oracle `handshake` (a failed handshake is
logged and the URL skipped).  Returns the new state and the number of
network connection attempts made: one per configured URL when the plugins
were not yet initialized, zero on the early return. -/
def Agent.initialize_plugins (handshake : String → Bool) (st : AgentState) :
    AgentState × Nat :=
  if st.plugins_initialized then (st, 0)
  else
    ({ st with
        mcp_plugins := st.mcp_sse_urls.filter handshake
        plugins_initialized := true
        chat_agent_set := true },
     st.mcp_sse_urls.length)

/-- `Agent.process_request` (agent.py:99-139): await `initialize_plugins`
first, then the `chat_agent` guard, then the empty-input check, then the
same history logic as `HostAgent.orchestrate`.  Returns the Python result,
the state after the call, and the number of network calls made before the
chat-completion call (the plugin handshakes). -/
def Agent.process_request (handshake : String → Bool)
    (llm : ChatHistory → String → Except PyExn String)
    (st : AgentState) (user_input context_id : String) :
    Except PyExn String × AgentState × Nat :=
  let ip := Agent.initialize_plugins handshake st
  let st0 := ip.1
  let ncalls := ip.2
  if st0.chat_agent_set = false then
    (.error (.runtimeError
      "Chat agent not initialized. Call initialize_plugins() first."), st0, ncalls)
  else if user_input = "" then
    (.error (.valueError "User input cannot be empty."), st0, ncalls)
  else
    let gc := getOrCreate st0.system_message st0.history_store context_id
    let chat_history := gc.1
    let store0 := gc.2
    let h1 : ChatHistory :=
      { chat_history with
        messages := chat_history.messages ++ [⟨"user", user_input⟩] }
    let st1 : AgentState := { st0 with history_store := storeSet store0 context_id h1 }
    match llm h1 user_input with
    | .error e => (.error e, st1, ncalls)
    | .ok reply =>
      let h2 : ChatHistory :=
        { h1 with messages := h1.messages ++ [⟨"assistant", reply⟩] }
      (.ok reply, { st0 with history_store := storeSet store0 context_id h2 }, ncalls)

/-! ## Derived abbreviations and sample values -/

/-- The conversation value as it stands right after the user turn is
appended (host_agent.py:218 / agent.py:130): the fetched-or-created history
with one user message added at the end. -/
def userTurnHistory (sys : String) (store : List (String × ChatHistory))
    (context_id user_input : String) : ChatHistory :=
  let gc := getOrCreate sys store context_id
  { gc.1 with messages := gc.1.messages ++ [⟨"user", user_input⟩] }

/-- The history store as it stands right after the user turn is appended:
the fetched-or-created store with the context's conversation replaced by
`userTurnHistory` (the state the failure path of the turn leaves behind). -/
def userTurnStore (sys : String) (store : List (String × ChatHistory))
    (context_id user_input : String) : List (String × ChatHistory) :=
  storeSet (getOrCreate sys store context_id).2 context_id
    (userTurnHistory sys store context_id user_input)

/-- A chat-completion oracle that always answers. -/
def llmOk : ChatHistory → String → Except PyExn String :=
  fun _ _ => .ok "ack"

/-- A chat-completion oracle that always raises. -/
def llmBoom : ChatHistory → String → Except PyExn String :=
  fun _ _ => .error (.other "boom")

/-- A host agent with no endpoints and an empty history store. -/
def sampleHost : HostAgentState :=
  { system_message := "sys", agent_endpoints := [], agent_tools := [],
    chat_agent_plugins := [], history_store := [] }

/-- A freshly constructed worker agent with one configured MCP URL:
plugins not yet initialized, `chat_agent` still `None`. -/
def sampleAgentFresh : AgentState :=
  { system_message := "sys", mcp_sse_urls := ["http://mcp"], mcp_plugins := [],
    plugins_initialized := false, chat_agent_set := false, history_store := [] }

/-- A worker agent whose plugins are already initialized. -/
def sampleAgentReady : AgentState :=
  { system_message := "sys", mcp_sse_urls := ["http://mcp"],
    mcp_plugins := ["http://mcp"], plugins_initialized := true,
    chat_agent_set := true, history_store := [] }

/-- A sample endpoint descriptor. -/
def sampleEndpoint : EndpointDescriptor :=
  { url := "http://x", name := "Order Agent", description := some "Checks orders",
    function_name := some "check_order_status" }

/-- A well-formed error envelope, as dumped from a JSONRPC error response. -/
def sampleErrEnv : List (String × Json) :=
  [("id", .str "1"), ("jsonrpc", .str "2.0"),
   ("error", .obj [("code", .num (-32600)), ("message", .str "X")])]

/-- A well-formed success envelope with one text part. -/
def sampleOkEnv : List (String × Json) :=
  [("id", .str "1"), ("jsonrpc", .str "2.0"),
   ("result", .obj [("kind", .str "message"),
     ("parts", .arr [.obj [("kind", .str "text"), ("text", .str "hi")]])])]

/-- A success envelope whose result carries no parts (e.g. a Task dump). -/
def sampleTaskEnv : List (String × Json) :=
  [("id", .str "1"), ("result", .obj [("status", .str "working")])]

/-- A success envelope with an empty parts list. -/
def sampleEmptyPartsEnv : List (String × Json) :=
  [("id", .str "1"), ("result", .obj [("parts", .arr [])])]

/-- The guarantee the a2a SDK's pydantic validation gives about one decoded
content part: a part is dumped from a typed Part union in which a `text`
field, when present, is a string (`TextPart.text: str`), so any "text"
member of a dumped part is a string value. -/
def textPartOkB (p : Json) : Bool :=
  match p with
  | .obj pfs =>
    match lookupKey pfs "text" with
    | some (.str _) => true
    | some _ => false
    | none => true
  | _ => true

/-- The part of the SDK validation guarantee that `_send_to_agent`'s
extraction path relies on: in a decoded envelope, if the "result" member is
an object whose "parts" member is a non-empty list, the first part respects
`textPartOkB`.  Everything else may be arbitrary. -/
def validEnvelopeB (env : List (String × Json)) : Bool :=
  match lookupKey env "result" with
  | some (.obj rfs) =>
    match lookupKey rfs "parts" with
    | some (.arr (p :: _)) => textPartOkB p
    | _ => true
  | _ => true

/-- A remote behaviour whose delivered envelopes respect the SDK
validation (timeouts and raised exceptions are always admissible). -/
def validBehaviorB : RemoteBehavior → Bool
  | .reply env => validEnvelopeB env
  | _ => true

/-- Holds of a call outcome that is a returned (not raised) string. -/
def isOkStr : Except PyExn Json → Bool
  | .ok (.str _) => true
  | _ => false

/-! ## Store lemmas -/

theorem storeGet_storeSet_self (s : List (String × ChatHistory)) (k : String)
    (v : ChatHistory) : storeGet (storeSet s k v) k = some v := by
  induction s with
  | nil => simp [storeSet, storeGet]
  | cons p rest ih =>
    obtain ⟨k', v'⟩ := p
    by_cases h : k' = k
    · simp [storeSet, storeGet, h]
    · simp [storeSet, storeGet, h, ih]

theorem storeGet_storeSet_ne (s : List (String × ChatHistory)) (k b : String)
    (v : ChatHistory) (h : b ≠ k) : storeGet (storeSet s k v) b = storeGet s b := by
  induction s with
  | nil => simp [storeSet, storeGet, Ne.symm h]
  | cons p rest ih =>
    obtain ⟨k', v'⟩ := p
    by_cases hk : k' = k
    · subst hk
      simp [storeSet, storeGet, Ne.symm h]
    · simp [storeSet, storeGet, hk, ih]

theorem length_storeSet_of_none (s : List (String × ChatHistory)) (k : String)
    (v : ChatHistory) (h : storeGet s k = none) :
    (storeSet s k v).length = s.length + 1 := by
  induction s with
  | nil => simp [storeSet]
  | cons p rest ih =>
    obtain ⟨k', v'⟩ := p
    by_cases hk : k' = k
    · simp [storeGet, hk] at h
    · simp only [storeGet, hk, if_false] at h
      simp [storeSet, hk, ih h]

theorem getOrCreate_frame (sys : String) (store : List (String × ChatHistory))
    (context_id b : String) (h : b ≠ context_id) :
    storeGet (getOrCreate sys store context_id).2 b = storeGet store b := by
  unfold getOrCreate
  cases hg : storeGet store context_id with
  | some v => simp
  | none => simp [storeGet_storeSet_ne _ _ _ _ h]

theorem orchestrate_frame (llm : ChatHistory → String → Except PyExn String)
    (st : HostAgentState) (user_input context_id b : String) (h : b ≠ context_id) :
    storeGet (HostAgent.orchestrate llm st user_input context_id).2.history_store b =
      storeGet st.history_store b := by
  unfold HostAgent.orchestrate
  by_cases hx : user_input = ""
  · simp [hx]
  · simp only [if_neg hx]
    split
    · simp [storeGet_storeSet_ne _ _ _ _ h, getOrCreate_frame _ _ _ _ h]
    · simp [storeGet_storeSet_ne _ _ _ _ h, getOrCreate_frame _ _ _ _ h]

theorem process_request_frame (handshake : String → Bool)
    (llm : ChatHistory → String → Except PyExn String)
    (st : AgentState) (user_input context_id b : String) (h : b ≠ context_id) :
    storeGet (Agent.process_request handshake llm st user_input context_id).2.1.history_store b =
      storeGet st.history_store b := by
  unfold Agent.process_request Agent.initialize_plugins
  by_cases hx : user_input = "" <;>
    by_cases hp : st.plugins_initialized <;>
      by_cases hc : st.chat_agent_set <;>
        simp only [hx, hp, hc, Bool.true_eq_false, Bool.false_eq_true, ite_true,
          ite_false, if_true, if_false, if_neg, if_pos, Bool.not_eq_true] <;>
        first
          | rfl
          | (split <;>
              simp [storeGet_storeSet_ne _ _ _ _ h, getOrCreate_frame _ _ _ _ h])

theorem runTurns_frame (llm : ChatHistory → String → Except PyExn String)
    (turns : List (String × String)) (st : HostAgentState) (b : String)
    (h : ∀ p ∈ turns, p.2 ≠ b) :
    storeGet (runTurns llm st turns).history_store b = storeGet st.history_store b := by
  induction turns generalizing st with
  | nil => rfl
  | cons t rest ih =>
    obtain ⟨x, a⟩ := t
    have ha : b ≠ a := fun hb => h (x, a) (by simp) hb.symm
    rw [runTurns, ih _ (fun p hp => h p (by simp [hp]))]
    exact orchestrate_frame llm st x a b ha

/-- C1: processing a turn for one context id never touches another context's
conversation: a completed `HostAgent.orchestrate` or `Agent.process_request`
call for context `a` leaves the history-store entry of every `b ≠ a`
unchanged, and any interleaving of completed calls whose context ids avoid
`b` leaves `b`'s conversation exactly as it was (no cross-inserted turns). -/
theorem claim1_cross_context_isolation :
    (∀ llm st x a b, b ≠ a →
      storeGet (HostAgent.orchestrate llm st x a).2.history_store b =
        storeGet st.history_store b)
    ∧ (∀ handshake llm st x a b, b ≠ a →
      storeGet (Agent.process_request handshake llm st x a).2.1.history_store b =
        storeGet st.history_store b)
    ∧ (∀ llm st turns b, (∀ p ∈ turns, p.2 ≠ b) →
      storeGet (runTurns llm st turns).history_store b =
        storeGet st.history_store b) :=
  ⟨fun llm st x a b h => orchestrate_frame llm st x a b h,
   fun handshake llm st x a b h => process_request_frame handshake llm st x a b h,
   fun llm st turns b h => runTurns_frame llm turns st b h⟩

theorem claim1_cross_context_isolation_witness :
    ("b" ≠ "a")
    ∧ storeGet (HostAgent.orchestrate llmOk sampleHost "hi" "a").2.history_store "b" =
        storeGet sampleHost.history_store "b"
    ∧ storeGet (Agent.process_request (fun _ => true) llmOk sampleAgentFresh "hi" "a").2.1.history_store "b" =
        storeGet sampleAgentFresh.history_store "b"
    ∧ storeGet (runTurns llmOk sampleHost [("hi", "a"), ("yo", "c")]).history_store "b" =
        storeGet sampleHost.history_store "b" :=
  ⟨by decide,
   claim1_cross_context_isolation.1 llmOk sampleHost "hi" "a" "b" (by decide),
   claim1_cross_context_isolation.2.1 (fun _ => true) llmOk sampleAgentFresh "hi" "a" "b" (by decide),
   claim1_cross_context_isolation.2.2 llmOk sampleHost [("hi", "a"), ("yo", "c")] "b" (by decide)⟩

/-- C9: conversation get-or-create is idempotent: the first access for an
unseen context id creates exactly one conversation, seeded with the agent's
system preamble and an empty turn sequence (the store grows by exactly one
entry), and a second access with the same context id returns that same
conversation and leaves the store untouched. -/
theorem claim9_get_or_create_idempotent (sys : String)
    (store : List (String × ChatHistory)) (context_id : String)
    (h : storeGet store context_id = none) :
    (getOrCreate sys store context_id).1 = { system_message := sys, messages := [] }
    ∧ (getOrCreate sys store context_id).2.length = store.length + 1
    ∧ storeGet (getOrCreate sys store context_id).2 context_id =
        some (getOrCreate sys store context_id).1
    ∧ getOrCreate sys (getOrCreate sys store context_id).2 context_id =
        ((getOrCreate sys store context_id).1, (getOrCreate sys store context_id).2) := by
  unfold getOrCreate
  simp only [h]
  simp [storeGet_storeSet_self, length_storeSet_of_none _ _ _ h]

theorem claim9_get_or_create_idempotent_witness :
    storeGet ([] : List (String × ChatHistory)) "ctx-1" = none
    ∧ (getOrCreate "sys" [] "ctx-1").1 = { system_message := "sys", messages := [] }
    ∧ getOrCreate "sys" (getOrCreate "sys" [] "ctx-1").2 "ctx-1" =
        ((getOrCreate "sys" [] "ctx-1").1, (getOrCreate "sys" [] "ctx-1").2) :=
  ⟨rfl, (claim9_get_or_create_idempotent "sys" [] "ctx-1" rfl).1,
   (claim9_get_or_create_idempotent "sys" [] "ctx-1" rfl).2.2.2⟩

/-- C2 counterexample: on a freshly constructed worker agent with one
configured MCP URL, `process_request("", "c")` does raise the empty-input
`ValueError` and leaves the conversation store unchanged, but it performs
one network call (the MCP plugin handshake that `initialize_plugins` runs
before the empty-input check at agent.py:110 vs agent.py:117) — not zero. -/
theorem claim2_empty_input_counterexample :
    (Agent.process_request (fun _ => true) llmOk sampleAgentFresh "" "c").1 =
      .error (.valueError "User input cannot be empty.")
    ∧ (Agent.process_request (fun _ => true) llmOk sampleAgentFresh "" "c").2.2 = 1
    ∧ (1 : Nat) ≠ 0
    ∧ (Agent.process_request (fun _ => true) llmOk sampleAgentFresh "" "c").2.1.history_store =
        sampleAgentFresh.history_store :=
  ⟨rfl, rfl, by decide, rfl⟩

/-- C2 (amended): empty input always fails with the empty-input `ValueError`
and leaves the conversation store unchanged, for both entry points;
`HostAgent.orchestrate` performs no network activity at all (its result and
state are independent of the chat-completion oracle and the state is
returned unchanged); `Agent.process_request` performs zero network calls
when plugins are already initialized, but on a first call it makes one
connection attempt per configured MCP URL before the empty-input check.
The worker-agent part assumes the construction invariant that
`_plugins_initialized` implies `chat_agent` is set (agent.py:91-97). -/
theorem claim2_empty_input_amended :
    (∀ llm llm' st cid,
      HostAgent.orchestrate llm st "" cid =
        (.error (.valueError "User input cannot be empty."), st)
      ∧ HostAgent.orchestrate llm st "" cid = HostAgent.orchestrate llm' st "" cid)
    ∧ (∀ handshake llm st cid,
      (st.plugins_initialized = true → st.chat_agent_set = true) →
      (Agent.process_request handshake llm st "" cid).1 =
        .error (.valueError "User input cannot be empty.")
      ∧ (Agent.process_request handshake llm st "" cid).2.1.history_store =
          st.history_store
      ∧ (Agent.process_request handshake llm st "" cid).2.2 =
          (if st.plugins_initialized then 0 else st.mcp_sse_urls.length)) := by
  constructor
  · intro llm llm' st cid
    constructor <;> simp [HostAgent.orchestrate]
  · intro handshake llm st cid hinv
    cases hp : st.plugins_initialized with
    | true =>
      have hc := hinv hp
      refine ⟨?_, ?_, ?_⟩ <;>
        simp [Agent.process_request, Agent.initialize_plugins, hp, hc]
    | false =>
      refine ⟨?_, ?_, ?_⟩ <;>
        simp [Agent.process_request, Agent.initialize_plugins, hp]

theorem claim2_empty_input_amended_witness :
    (sampleAgentReady.plugins_initialized = true →
      sampleAgentReady.chat_agent_set = true)
    ∧ (Agent.process_request (fun _ => true) llmOk sampleAgentReady "" "c").1 =
        .error (.valueError "User input cannot be empty.")
    ∧ (Agent.process_request (fun _ => true) llmOk sampleAgentReady "" "c").2.2 =
        (if sampleAgentReady.plugins_initialized then 0 else sampleAgentReady.mcp_sse_urls.length) :=
  ⟨by simp [sampleAgentReady],
   (claim2_empty_input_amended.2 (fun _ => true) llmOk sampleAgentReady "c"
      (by simp [sampleAgentReady])).1,
   (claim2_empty_input_amended.2 (fun _ => true) llmOk sampleAgentReady "c"
      (by simp [sampleAgentReady])).2.2⟩

/-- C10: turn processing is not atomic on failure: for non-empty input, if
the chat-completion call raises after the user turn was appended, the
exception propagates to the caller and the stored conversation for that
context id keeps the appended user turn with no matching assistant turn —
it grew by exactly the one user message and is not rolled back.  Holds for
both `HostAgent.orchestrate` and `Agent.process_request` (the latter under
the construction invariant that `_plugins_initialized` implies `chat_agent`
is set). -/
theorem claim10_no_rollback_on_llm_failure :
    (∀ llm st input cid e, input ≠ "" →
      llm (userTurnHistory st.system_message st.history_store cid input) input =
        .error e →
      HostAgent.orchestrate llm st input cid =
        (.error e,
         { st with history_store :=
             userTurnStore st.system_message st.history_store cid input })
      ∧ storeGet (HostAgent.orchestrate llm st input cid).2.history_store cid =
          some (userTurnHistory st.system_message st.history_store cid input)
      ∧ (userTurnHistory st.system_message st.history_store cid input).messages =
          (getOrCreate st.system_message st.history_store cid).1.messages ++
            [⟨"user", input⟩])
    ∧ (∀ handshake llm st input cid e,
      (st.plugins_initialized = true → st.chat_agent_set = true) →
      input ≠ "" →
      llm (userTurnHistory st.system_message st.history_store cid input) input =
        .error e →
      (Agent.process_request handshake llm st input cid).1 = .error e
      ∧ storeGet (Agent.process_request handshake llm st input cid).2.1.history_store cid =
          some (userTurnHistory st.system_message st.history_store cid input)) := by
  constructor
  · intro llm st input cid e hne hllm
    simp only [userTurnHistory] at hllm
    refine ⟨?_, ?_, ?_⟩ <;>
      simp [HostAgent.orchestrate, userTurnHistory, userTurnStore, hne, hllm,
        storeGet_storeSet_self]
  · intro handshake llm st input cid e hinv hne hllm
    simp only [userTurnHistory] at hllm
    cases hp : st.plugins_initialized with
    | true =>
      have hc := hinv hp
      constructor <;>
        simp [Agent.process_request, Agent.initialize_plugins, userTurnHistory,
          hp, hc, hne, hllm, storeGet_storeSet_self]
    | false =>
      constructor <;>
        simp [Agent.process_request, Agent.initialize_plugins, userTurnHistory,
          hp, hne, hllm, storeGet_storeSet_self]

theorem claim10_no_rollback_on_llm_failure_witness :
    ("hi" ≠ "")
    ∧ llmBoom (userTurnHistory sampleHost.system_message sampleHost.history_store "ctx-1" "hi") "hi" =
        .error (.other "boom")
    ∧ storeGet (HostAgent.orchestrate llmBoom sampleHost "hi" "ctx-1").2.history_store "ctx-1" =
        some (userTurnHistory sampleHost.system_message sampleHost.history_store "ctx-1" "hi")
    ∧ (sampleAgentReady.plugins_initialized = true → sampleAgentReady.chat_agent_set = true)
    ∧ (Agent.process_request (fun _ => true) llmBoom sampleAgentReady "hi" "ctx-1").1 =
        .error (.other "boom") :=
  ⟨by decide, rfl,
   (claim10_no_rollback_on_llm_failure.1 llmBoom sampleHost "hi" "ctx-1"
      (.other "boom") (by decide) rfl).2.1,
   by simp [sampleAgentReady],
   (claim10_no_rollback_on_llm_failure.2 (fun _ => true) llmBoom sampleAgentReady
      "hi" "ctx-1" (.other "boom") (by simp [sampleAgentReady]) (by decide) rfl).1⟩

/-- C4 counterexample: the actual code (host_agent.py:85) interpolates the
word "agent" after the agent name: for agent name "Order" and error message
"X" the proxy returns "Error from Order agent: X", which is not the claimed
"Error from Order: X" (with the placeholder replaced by the agent name). -/
theorem claim4_error_envelope_counterexample :
    (sendToAgentR "Order" (.reply sampleErrEnv)).1 =
      .ok (.str "Error from Order agent: X")
    ∧ "Error from Order agent: X" ≠ "Error from Order: X" :=
  ⟨rfl, by decide⟩

/-- C4 (amended): a proxy call whose decoded reply is a well-formed error
envelope whose "error" member is an object carrying "message" X returns the
string "Error from <agent> agent: X" (the agent name followed by the word
"agent"), and no exception escapes the proxy. -/
theorem claim4_error_envelope_amended (agent_name msg : String)
    (env efs : List (String × Json))
    (he : lookupKey env "error" = some (.obj efs))
    (hm : lookupKey efs "message" = some (.str msg)) :
    (sendToAgentR agent_name (.reply env)).1 =
      .ok (.str ("Error from " ++ agent_name ++ " agent: " ++ msg)) := by
  simp [sendToAgentR, tryBody, envelopeBody, he, hm, pyStr]

theorem claim4_error_envelope_amended_witness :
    lookupKey sampleErrEnv "error" =
      some (.obj [("code", .num (-32600)), ("message", .str "X")])
    ∧ lookupKey [("code", .num (-32600)), ("message", .str "X")] "message" =
        some (.str "X")
    ∧ (sendToAgentR "Order" (.reply sampleErrEnv)).1 =
        .ok (.str ("Error from " ++ "Order" ++ " agent: " ++ "X")) :=
  ⟨rfl, rfl,
   claim4_error_envelope_amended "Order" "X" sampleErrEnv
     [("code", .num (-32600)), ("message", .str "X")] rfl rfl⟩

theorem sendToAgentR_snd (agent_name : String) (b : RemoteBehavior) :
    (sendToAgentR agent_name b).2 = (tryBody agent_name b).2 := by
  unfold sendToAgentR
  split <;> simp_all

/-- C5: a proxy call whose send operation times out returns (does not
raise) a string containing "taking longer than expected", that call made
exactly one send attempt, and no behaviour ever leads to more than one send
attempt (there is no retry inside the proxy). -/
theorem claim5_timeout_single_attempt (agent_name : String) :
    (∃ pre post, (sendToAgentR agent_name .sendTimeout).1 =
      .ok (.str (pre ++ "taking longer than expected" ++ post)))
    ∧ (sendToAgentR agent_name .sendTimeout).2 = 1
    ∧ ∀ b, (sendToAgentR agent_name b).2 ≤ 1 := by
  refine ⟨⟨"Error: The " ++ agent_name ++ " agent is ", ". Please try again.", ?_⟩,
    rfl, ?_⟩
  · show Except.ok (Json.str ("Error: The " ++ agent_name ++
      " agent is taking longer than expected. Please try again.")) = _
    have h : (" agent is taking longer than expected. Please try again." : String) =
        " agent is " ++ "taking longer than expected" ++ ". Please try again." := rfl
    rw [h]
    simp [String.append_assoc]
  · intro b
    rw [sendToAgentR_snd]
    cases b <;> simp [tryBody]

/-- C6: on a well-formed success envelope the proxy returns the text of the
first content part; on an envelope with no extractable text — no "result"
member, a result without "parts", or an empty parts list — it returns the
string "Error: Unexpected response format from <agent> agent" (which begins
with "Error: Unexpected response format" and names the agent); in all four
cases without raising. -/
theorem claim6_success_and_unexpected_format :
    (∀ agent_name env rfs ptail pfs t,
      lookupKey env "error" = none →
      lookupKey env "result" = some (.obj rfs) →
      lookupKey rfs "parts" = some (.arr (Json.obj pfs :: ptail)) →
      lookupKey pfs "text" = some (.str t) →
      (sendToAgentR agent_name (.reply env)).1 = .ok (.str t))
    ∧ (∀ agent_name env,
      lookupKey env "error" = none →
      lookupKey env "result" = none →
      (sendToAgentR agent_name (.reply env)).1 =
        .ok (.str (unexpectedFormatMsg agent_name)))
    ∧ (∀ agent_name env rfs,
      lookupKey env "error" = none →
      lookupKey env "result" = some (.obj rfs) →
      lookupKey rfs "parts" = none →
      (sendToAgentR agent_name (.reply env)).1 =
        .ok (.str (unexpectedFormatMsg agent_name)))
    ∧ (∀ agent_name env rfs,
      lookupKey env "error" = none →
      lookupKey env "result" = some (.obj rfs) →
      lookupKey rfs "parts" = some (.arr []) →
      (sendToAgentR agent_name (.reply env)).1 =
        .ok (.str (unexpectedFormatMsg agent_name))) := by
  refine ⟨?_, ?_, ?_, ?_⟩
  · intro agent_name env rfs ptail pfs t he hr hp ht
    simp [sendToAgentR, tryBody, envelopeBody, he, hr, hp, ht,
      pyContains, pySubscript, pyLen]
  · intro agent_name env he hr
    simp [sendToAgentR, tryBody, envelopeBody, he, hr]
  · intro agent_name env rfs he hr hp
    simp [sendToAgentR, tryBody, envelopeBody, he, hr, hp, pyContains]
  · intro agent_name env rfs he hr hp
    simp [sendToAgentR, tryBody, envelopeBody, he, hr, hp,
      pyContains, pySubscript, pyLen]

theorem claim6_success_and_unexpected_format_witness :
    lookupKey sampleOkEnv "error" = none
    ∧ (sendToAgentR "Order" (.reply sampleOkEnv)).1 = .ok (.str "hi")
    ∧ (sendToAgentR "Order" (.reply [("id", .str "1")])).1 =
        .ok (.str (unexpectedFormatMsg "Order"))
    ∧ (sendToAgentR "Order" (.reply sampleTaskEnv)).1 =
        .ok (.str (unexpectedFormatMsg "Order"))
    ∧ (sendToAgentR "Order" (.reply sampleEmptyPartsEnv)).1 =
        .ok (.str (unexpectedFormatMsg "Order")) :=
  ⟨rfl,
   claim6_success_and_unexpected_format.1 "Order" sampleOkEnv
     [("kind", .str "message"),
      ("parts", .arr [.obj [("kind", .str "text"), ("text", .str "hi")]])]
     [] [("kind", .str "text"), ("text", .str "hi")] "hi" rfl rfl rfl rfl,
   claim6_success_and_unexpected_format.2.1 "Order" [("id", .str "1")] rfl rfl,
   claim6_success_and_unexpected_format.2.2.1 "Order" sampleTaskEnv
     [("status", .str "working")] rfl rfl rfl,
   claim6_success_and_unexpected_format.2.2.2 "Order" sampleEmptyPartsEnv
     [("parts", .arr [])] rfl rfl rfl⟩

theorem pySubscript_ok_str_key (v : Json) (k : String) (w : Json)
    (h : pySubscript v (.str k) = .ok w) :
    ∃ fs, v = .obj fs ∧ lookupKey fs k = some w := by
  cases v <;> simp [pySubscript] at h
  case obj fs =>
    cases hl : lookupKey fs k with
    | none => rw [hl] at h; simp at h
    | some u => rw [hl] at h; simp at h; exact ⟨fs, rfl, by rw [hl, h]⟩

theorem pySubscript_ok_zero (v w : Json)
    (h : pySubscript v (.num 0) = .ok w) :
    (∃ xs, v = .arr xs ∧ xs[0]? = some w) ∨ (∃ s, w = .str s) := by
  cases v <;> simp [pySubscript] at h
  case arr xs =>
    cases hx : xs[0]? with
    | none => rw [hx] at h; simp at h
    | some u => rw [hx] at h; simp at h; exact .inl ⟨xs, rfl, by rw [hx, h]⟩
  case str s =>
    cases hc : s.data[0]? with
    | none => rw [hc] at h; simp at h
    | some c => rw [hc] at h; simp at h; exact .inr ⟨_, h.symm⟩

theorem envelopeBody_str_or_raise (agent_name : String)
    (env : List (String × Json)) (h : validEnvelopeB env = true) :
    (∃ e, envelopeBody agent_name env = .error e) ∨
    (∃ s, envelopeBody agent_name env = .ok (.str s)) := by
  unfold envelopeBody
  cases herr : lookupKey env "error" with
  | some errVal => cases errVal <;> simp
  | none =>
    cases hres : lookupKey env "result" with
    | none => simp
    | some resVal =>
      cases hcon : pyContains "parts" resVal with
      | error e => simp [hcon]
      | ok contained =>
        cases contained with
        | false => simp [hcon]
        | true =>
          cases hsub : pySubscript resVal (.str "parts") with
          | error e => simp [hcon, hsub]
          | ok partsVal =>
            cases hlen : pyLen partsVal with
            | error e => simp [hcon, hsub, hlen]
            | ok n =>
              by_cases hn : 0 < n
              · cases hp0 : pySubscript partsVal (.num 0) with
                | error e => simp [hcon, hsub, hlen, hn, hp0]
                | ok p0 =>
                  cases ht : pySubscript p0 (.str "text") with
                  | error e => simp [hcon, hsub, hlen, hn, hp0, ht]
                  | ok t =>
                    right
                    obtain ⟨pfs, hp0obj, htext⟩ := pySubscript_ok_str_key p0 "text" t ht
                    obtain ⟨rfs, hrobj, hparts⟩ :=
                      pySubscript_ok_str_key resVal "parts" partsVal hsub
                    subst hrobj
                    rcases pySubscript_ok_zero partsVal p0 hp0 with ⟨xs, hxs, hget⟩ | ⟨s, hws⟩
                    · subst hxs
                      cases xs with
                      | nil => simp at hget
                      | cons q qs =>
                        have hq : q = p0 := by simpa using hget
                        subst hq
                        subst hp0obj
                        simp only [validEnvelopeB, hres, hparts, textPartOkB,
                          htext] at h
                        cases t with
                        | str s =>
                          refine ⟨s, ?_⟩
                          simp [hcon, hsub, hlen, hn, hp0, ht]
                        | null => simp at h
                        | bool b => simp at h
                        | num m => simp at h
                        | arr l => simp at h
                        | obj o => simp at h
                    · subst hp0obj
                      simp at hws
              · simp [hcon, hsub, hlen, hn]

/-- C3: for every input instruction and every behaviour of the remote
endpoint — error envelope, success envelope, timeout, or any raised
transport/decoding exception — `_send_to_agent` never lets an exception
escape the proxy boundary, and whenever the delivered envelope respects the
SDK's validation guarantee, the returned value is a string. -/
theorem claim3_no_exception_escapes :
    (∀ agent_name b, (sendToAgentR agent_name b).1.isOk = true)
    ∧ (∀ agent_name b, validBehaviorB b = true →
        isOkStr (sendToAgentR agent_name b).1 = true) := by
  constructor
  · intro agent_name b
    unfold sendToAgentR
    split <;> rfl
  · intro agent_name b hv
    cases b with
    | reply env =>
      have hve : validEnvelopeB env = true := hv
      rcases envelopeBody_str_or_raise agent_name env hve with ⟨e, he⟩ | ⟨s, hs⟩
      · unfold sendToAgentR tryBody
        cases e <;> simp [he, isOkStr]
      · unfold sendToAgentR tryBody
        simp [hs, isOkStr]
    | resolveTimeout => simp [sendToAgentR, tryBody, isOkStr]
    | resolveRaise m => simp [sendToAgentR, tryBody, isOkStr, pyExnStr]
    | sendTimeout => simp [sendToAgentR, tryBody, isOkStr]
    | sendRaise m => simp [sendToAgentR, tryBody, isOkStr, pyExnStr]

theorem claim3_no_exception_escapes_witness :
    validBehaviorB (.reply sampleOkEnv) = true
    ∧ (sendToAgentR "Order" (.reply sampleOkEnv)).1.isOk = true
    ∧ isOkStr (sendToAgentR "Order" (.reply sampleOkEnv)).1 = true :=
  ⟨rfl, claim3_no_exception_escapes.1 "Order" (.reply sampleOkEnv),
   claim3_no_exception_escapes.2 "Order" (.reply sampleOkEnv) rfl⟩

/-- C7 counterexample: the description that a tool binding exposes to the
LLM runtime is not exactly the descriptor's description — the code
(host_agent.py:103-104) exposes `"Send a request to <name>: <description>"`.
For the descriptor (name "Order Agent", description "Checks orders") the
binding's exposed description is "Send a request to Order Agent: Checks
orders", which differs from "Checks orders". -/
theorem claim7_registry_counterexample :
    hostInitTools [sampleEndpoint] =
      .ok [create_agent_tool_class "Order Agent" "http://x" "Checks orders"
        "check_order_status"]
    ∧ (create_agent_tool_class "Order Agent" "http://x" "Checks orders"
        "check_order_status").exposed_description =
        "Send a request to Order Agent: Checks orders"
    ∧ "Send a request to Order Agent: Checks orders" ≠ "Checks orders" :=
  ⟨rfl, rfl, by decide⟩

/-- C7 (amended): for N endpoint descriptors each carrying a function_name,
construction yields exactly N tool bindings; the i-th binding's exposed
function name is exactly the i-th descriptor's function_name, its exposed
description is the derived string "Send a request to <name>: <description>"
(not the bare description), and its invocation targets exactly the i-th
descriptor's url. -/
theorem claim7_registry_amended (endpoints : List EndpointDescriptor)
    (h : endpoints.all (fun e => e.function_name.isSome) = true) :
    ∃ tools, hostInitTools endpoints = .ok tools
    ∧ tools.length = endpoints.length
    ∧ ∀ i (hi : i < endpoints.length) (hj : i < tools.length),
        (endpoints.get ⟨i, hi⟩).function_name =
          some ((tools.get ⟨i, hj⟩).exposed_name)
        ∧ (tools.get ⟨i, hj⟩).exposed_description =
            "Send a request to " ++ (endpoints.get ⟨i, hi⟩).name ++ ": " ++
              ((endpoints.get ⟨i, hi⟩).description).getD ""
        ∧ invokeTarget (tools.get ⟨i, hj⟩) = (endpoints.get ⟨i, hi⟩).url := by
  refine ⟨endpoints.map (fun e => create_agent_tool_class e.name e.url
      (e.description.getD "") (e.function_name.getD "")), ?_, by simp, ?_⟩
  · simp [hostInitTools, h]
  · intro i hi hj
    have hfn : (endpoints.get ⟨i, hi⟩).function_name.isSome = true := by
      have hmem := List.all_eq_true.mp h (endpoints.get ⟨i, hi⟩) (List.get_mem _ _ _)
      simpa using hmem
    obtain ⟨a, ha⟩ := Option.isSome_iff_exists.mp hfn
    simp only [List.get_eq_getElem] at ha
    refine ⟨?_, ?_, ?_⟩
    · simp [List.getElem_map, create_agent_tool_class, ha]
    · simp [List.getElem_map, create_agent_tool_class]
    · simp [List.getElem_map, create_agent_tool_class, invokeTarget]

theorem claim7_registry_amended_witness :
    ([sampleEndpoint].all (fun e => e.function_name.isSome) = true)
    ∧ ∃ tools, hostInitTools [sampleEndpoint] = .ok tools
    ∧ tools.length = [sampleEndpoint].length
    ∧ ∀ i (hi : i < [sampleEndpoint].length) (hj : i < tools.length),
        ([sampleEndpoint].get ⟨i, hi⟩).function_name =
          some ((tools.get ⟨i, hj⟩).exposed_name)
        ∧ (tools.get ⟨i, hj⟩).exposed_description =
            "Send a request to " ++ ([sampleEndpoint].get ⟨i, hi⟩).name ++ ": " ++
              (([sampleEndpoint].get ⟨i, hi⟩).description).getD ""
        ∧ invokeTarget (tools.get ⟨i, hj⟩) = ([sampleEndpoint].get ⟨i, hi⟩).url :=
  ⟨rfl, claim7_registry_amended [sampleEndpoint] rfl⟩

/-- C8: `add_agent_endpoint` appends exactly one new binding built from the
given arguments: the new tool list is the old list with one binding
appended (so every previously built binding is still present, unaltered, at
its old position), the plugin list handed to the chat-completion agent is
updated to that same new list (so the next chat-completion call sees it,
with no restart), and the new binding carries exactly the given
function_name and targets exactly the given url. -/
theorem claim8_add_endpoint_appends (st : HostAgentState)
    (url name function_name description : String) :
    (HostAgent.add_agent_endpoint st url name function_name description).agent_tools =
      st.agent_tools ++ [create_agent_tool_class name url description function_name]
    ∧ (HostAgent.add_agent_endpoint st url name function_name
        description).agent_tools.take st.agent_tools.length = st.agent_tools
    ∧ (HostAgent.add_agent_endpoint st url name function_name
        description).chat_agent_plugins =
      (HostAgent.add_agent_endpoint st url name function_name
        description).agent_tools
    ∧ (create_agent_tool_class name url description function_name).exposed_name =
        function_name
    ∧ invokeTarget (create_agent_tool_class name url description function_name) =
        url := by
  refine ⟨rfl, ?_, rfl, rfl, rfl⟩
  simp [HostAgent.add_agent_endpoint, List.take_left]
